import Mathlib

/-!
Shallow embedding of the ServiceNow MCP server (`server.py`): the HTTP
outcome normalizer (`_handle_request_errors`), the table client
(`query_table`, `insert_record`, `modify_record`), the four tool-surface
operations (`query_records`, `get_single_record`, `create_record`,
`update_record`) and the framework router (`list_frameworks`,
`read_framework_instructions`).

Modelling conventions:
* JSON values are the inductive `Json`; Python `dict` is `Json.obj` (an
  association list), `list` is `Json.arr`.
* The network is an oracle: each remote call's behaviour is an input of
  type `HttpEvent` describing what the transport library produced (a
  response with status / content-type / body / JSON-decode result, or a
  raised timeout / network / other exception).  URL and header assembly
  is delegated to the external `httpx` collaborator and is not modelled.
* `json.loads` is an oracle `String → Option Json` (`none` = raised
  `json.JSONDecodeError`).
* Tool operations that may or may not reach the network return an extra
  `Bool` that is `true` exactly when the remote call was issued.
* The Python result dictionaries are the structure `Outcome`; a field
  whose `Option` is `none` is absent from the dictionary.
-/

namespace SNServer

/-- JSON values (the image of Python's `json` module). -/
inductive Json where
  | null : Json
  | bool (b : Bool) : Json
  | num (n : Int) : Json
  | str (s : String) : Json
  | arr (elems : List Json) : Json
  | obj (fields : List (String × Json)) : Json

/-- Whether a JSON value is a Python `list`. -/
def Json.isArr : Json → Bool
  | .arr _ => true
  | _ => false

/-- Whether a JSON value is a Python `dict`. -/
def Json.isObj : Json → Bool
  | .obj _ => true
  | _ => false

/-- Helper for Python's substring test: does `needle` occur as a
contiguous run inside the list? -/
def strContainsAux (needle : List Char) : List Char → Bool
  | [] => needle.isEmpty
  | c :: rest => needle.isPrefixOf (c :: rest) || strContainsAux needle rest

/-- Python's `needle in hay` on strings (contiguous substring test). -/
def strContains (hay needle : String) : Bool :=
  strContainsAux needle.toList hay.toList

/-- Python's `s.endswith(suffix)`. -/
def strEndsWith (s suffix : String) : Bool :=
  suffix.toList.isSuffixOf s.toList

/-- Python's `s.upper()` (over the ASCII names that occur here). -/
def strUpper (s : String) : String :=
  ⟨s.toList.map Char.toUpper⟩

/-- Python's `s.lower()` (over the ASCII bodies that occur here). -/
def strLower (s : String) : String :=
  ⟨s.toList.map Char.toLower⟩

/-- Python's `not s.strip()`: the string is empty or all whitespace. -/
def isBlank (s : String) : Bool :=
  s.toList.all Char.isWhitespace

/-- Lexicographic code-point comparison on character lists, the order
Python's `sorted` uses on strings. -/
def charListLe : List Char → List Char → Bool
  | [], _ => true
  | _ :: _, [] => false
  | a :: as, b :: bs =>
      if a < b then true
      else if b < a then false
      else charListLe as bs

/-- Python's `a <= b` on strings (code-point lexicographic). -/
def strLeB (a b : String) : Bool :=
  charListLe a.toList b.toList

/-- What the transport layer produced for one remote call: either a
response (with HTTP status, content-type header, body text, and the
result of attempting to JSON-decode the body, `none` modelling a raised
`json.JSONDecodeError`), or one of the `httpx` exception classes. -/
inductive HttpEvent where
  | response (status : Nat) (contentType : String) (body : String) (parsed : Option Json)
  | timeoutExc (msg : String)
  | networkExc (msg : String)
  | otherExc (msg : String)

/-- The result dictionary built by the server; an `Option` field that is
`none` is a key absent from the dictionary. -/
structure Outcome where
  success : Bool
  data : Option Json := none
  count : Option Nat := none
  error : Option String := none
  error_type : Option String := none
  status_code : Option Nat := none

/-- Error message for the non-JSON content-type guard, including the
hibernation remediation hint (`server.py` lines 100-108). -/
def unexpectedContentMsg (contentType body : String) : String :=
  let base := "Expected JSON response but got Content-Type: " ++ contentType ++
    ". Body preview: " ++ body.take 500
  if strContains body "Instance Hibernating" || strContains (strLower body) "<html" then
    base ++ " — Your ServiceNow PDI appears to be hibernating. Wake it up via a browser first, then retry."
  else
    base

/-- Embedding of `ServiceNowClient._handle_request_errors` (`server.py`
lines 84-135).  `raise_for_status` raises `HTTPStatusError` exactly for
statuses outside 200-299; the empty-body and content-type guards follow;
then the body's JSON decode; on a decoded value `data`, the Python code
evaluates `data.get('result', data)`, which succeeds only when `data` is
a `dict` — on any other decoded shape the `AttributeError` falls into the
final `except Exception` arm and becomes `unexpected_error`. -/
def handle_request_errors : HttpEvent → Outcome
  | .timeoutExc msg =>
      { success := false, error := some ("Request timeout: " ++ msg),
        error_type := some "timeout" }
  | .networkExc msg =>
      { success := false, error := some ("Network error: " ++ msg),
        error_type := some "network_error" }
  | .otherExc msg =>
      { success := false, error := some ("Unexpected error: " ++ msg),
        error_type := some "unexpected_error" }
  | .response status contentType body parsed =>
      if ¬ (200 ≤ status ∧ status ≤ 299) then
        { success := false,
          error := some ("HTTP " ++ toString status ++ " error: " ++ body),
          error_type := some "http_error",
          status_code := some status }
      else if isBlank body then
        { success := false,
          error := some "ServiceNow returned 200 OK but with an empty response body.",
          error_type := some "empty_response" }
      else if strContains contentType "application/json" = false then
        { success := false,
          error := some (unexpectedContentMsg contentType body),
          error_type := some "unexpected_content" }
      else
        match parsed with
        | none =>
            { success := false,
              error := some ("Invalid JSON response. Body preview: " ++ body.take 500),
              error_type := some "json_error" }
        | some data =>
            match data with
            | .obj fields =>
                { success := true,
                  data := some ((fields.lookup "result").getD (Json.obj fields)) }
            | _ =>
                { success := false,
                  error := some "Unexpected error: JSON value has no attribute get.",
                  error_type := some "unexpected_error" }

/-- The coercion `data if isinstance(data, list) else [data]` of
`server.py` line 146. -/
def Json.toListWrap : Json → List Json
  | .arr l => l
  | d => [d]

/-- Embedding of `ServiceNowClient.query_table` (`server.py` lines
137-150): on success, wrap a non-list `data` into a one-element list and
set `count` to the list's length. -/
def query_table (ev : HttpEvent) : Outcome :=
  let result := handle_request_errors ev
  if result.success then
    match result.data with
    | some d =>
        let data_list := d.toListWrap
        { result with data := some (.arr data_list), count := some data_list.length }
    | none => result
  else
    result

/-- Embedding of `ServiceNowClient.insert_record` (POST; `server.py`
lines 152-158): it delegates the whole interaction to the normalizer. -/
def insert_record (ev : HttpEvent) : Outcome :=
  handle_request_errors ev

/-- Embedding of `ServiceNowClient.modify_record` (PATCH; `server.py`
lines 160-166): it delegates the whole interaction to the normalizer. -/
def modify_record (ev : HttpEvent) : Outcome :=
  handle_request_errors ev

/-- The query-parameter dictionary assembled by the tool surface. -/
structure QueryParams where
  sysparm_limit : Int
  sysparm_display_value : String
  sysparm_query : Option String := none
  sysparm_fields : Option String := none
deriving Repr, DecidableEq

/-- Embedding of the `query_records` tool (`server.py` lines 184-206):
builds the parameter dictionary (clamping `limit` with `min(limit, 100)`)
and returns `query_table`'s outcome unconditionally. -/
def query_records (query : String) (limit : Int) (fields : String) (ev : HttpEvent) :
    QueryParams × Outcome :=
  let params : QueryParams :=
    { sysparm_limit := min limit 100,
      sysparm_display_value := "true",
      sysparm_query := if query = "" then none else some query,
      sysparm_fields := if fields = "" then none else some fields }
  (params, query_table ev)

/-- Embedding of the `get_single_record` tool (`server.py` lines
208-233): queries with an equality filter and `sysparm_limit = 1`; when
the call succeeds with `count == 0` it replaces the outcome by a
`success:false` "not found" dictionary (which carries no `error_type`). -/
def get_single_record (table_name record_number query_field fields : String)
    (ev : HttpEvent) : QueryParams × Outcome :=
  let params : QueryParams :=
    { sysparm_limit := 1,
      sysparm_display_value := "true",
      sysparm_query := some (query_field ++ "=" ++ record_number),
      sysparm_fields := if fields = "" then none else some fields }
  let result := query_table ev
  if result.success && (result.count.getD 0 == 0) then
    (params,
      { success := false,
        error := some ("Record " ++ record_number ++ " not found in " ++ table_name) })
  else
    (params, result)

/-- Embedding of the `create_record` tool (`server.py` lines 235-252):
`json.loads` the payload; on decode failure return the local error
dictionary (no `error_type` key) without any network call; otherwise
delegate to `insert_record`.  The second component records whether the
network call was issued. -/
def create_record (parseJson : String → Option Json) (payload_json : String)
    (ev : HttpEvent) : Outcome × Bool :=
  match parseJson payload_json with
  | some _ => (insert_record ev, true)
  | none =>
      ({ success := false, error := some "Invalid JSON string provided for payload." },
       false)

/-- Embedding of `re.fullmatch(r'[0-9a-f]{32}', sys_id)`: exactly 32
characters, each a decimal digit or a lowercase `a`-`f`. -/
def isValidSysId (s : String) : Bool :=
  s.length == 32 && s.toList.all fun c => c.isDigit || ('a' ≤ c && c ≤ 'f')

/-- Embedding of the `update_record` tool (`server.py` lines 254-276):
first the strict sys_id format check (local error dictionary, no
`error_type` key, no network call), then the payload decode (same
short-circuit), then delegate to `modify_record`.  The second component
records whether the network call was issued. -/
def update_record (parseJson : String → Option Json) (sys_id payload_json : String)
    (ev : HttpEvent) : Outcome × Bool :=
  if isValidSysId sys_id = false then
    ({ success := false,
       error := some ("Invalid sys_id format: '" ++ sys_id ++
         "'. Must be a 32-character hex string.") },
     false)
  else
    match parseJson payload_json with
    | some _ => (modify_record ev, true)
    | none =>
        ({ success := false, error := some "Invalid JSON string provided for payload." },
         false)

/-- The seven `error_type` values the Outcome Normalizer can emit
(section 7 of the spec). -/
def errorTaxonomy : List String :=
  ["empty_response", "unexpected_content", "http_error", "network_error",
   "timeout", "json_error", "unexpected_error"]

/-- A failure dictionary is well formed when it carries an error message
and any `error_type` it carries is from the normalizer taxonomy. -/
def failureWellFormed (o : Outcome) : Prop :=
  o.error.isSome = true ∧ ∀ t, o.error_type = some t → t ∈ errorTaxonomy

/-! Framework router.  The document store is an association list from
relative paths (`docs/<domain>/<file>.md`) to file contents; the router
functions additionally return the list of paths on which a file-system
access (an `open` attempt or an `os.path.exists` probe) was performed. -/

/-- The on-disk document store under `BASE_DIR`. -/
structure DocStore where
  docs : List (String × String)

/-- File lookup: `some` is a successful `open`/`read`, `none` a raised
`FileNotFoundError` (for `open`) or a `False` from `os.path.exists`. -/
def DocStore.lookup (fs : DocStore) (path : String) : Option String :=
  fs.docs.lookup path

/-- Path of a framework document, `os.path.join(BASE_DIR, "docs", domain,
framework + ".md")` relative to `BASE_DIR`. -/
def frameworkPath (domain framework : String) : String :=
  "docs/" ++ domain ++ "/" ++ framework ++ ".md"

/-- Path of a domain's reserved standards document. -/
def standardsPath (domain : String) : String :=
  "docs/" ++ domain ++ "/_standards.md"

/-- Characters accepted by the sanitizer's class `[a-zA-Z0-9_-]`. -/
def isSafeChar (c : Char) : Bool :=
  c.isAlphanum || c == '_' || c == '-'

/-- Embedding of Python's `re.match(r'^[a-zA-Z0-9_-]+$', s)`: `re.match`
anchors at the start, and `$` matches at the end of the string **or just
before a newline at the end of the string**, so the pattern accepts a
non-empty run of safe characters optionally followed by one trailing
newline. -/
def safeNameMatch (s : String) : Bool :=
  (decide (s ≠ "") && s.toList.all isSafeChar) ||
  (strEndsWith s "\n" && decide (s.dropRight 1 ≠ "") && (s.dropRight 1).toList.all isSafeChar)

/-- Literal chunks of the directive template (`server.py` lines 355 and
362-384), split at the interpolation points of the f-strings. -/
def promptIntro1 : String := "\n    You are executing the '"

/-- Between the framework and domain interpolations of the header. -/
def promptIntro2 : String := "' framework for the '"

/-- After the domain interpolation, up to the standards interpolation. -/
def promptIntro3 : String := "' domain.\n \n    "

/-- Label prefix of the injected standards block. -/
def stdLabel1 : String := "### GLOBAL "

/-- Label suffix of the injected standards block (after
`domain.upper()`). -/
def stdLabel2 : String := " STANDARDS\n"

/-- Separator appended after the standards content. -/
def stdTail : String := "\n\n---\n"

/-- Between the standards block and the task instructions. -/
def taskHeader : String := "\n    ### YOUR TASK INSTRUCTIONS\n    "

/-- Between the task instructions and the branch-dependent next steps. -/
def nextStepsHeader : String := "\n \n    ---\n    ### YOUR NEXT STEPS\n    "

/-- Next-steps text preceding the `target` interpolation (taken when a
target record was supplied). -/
def targetBlock1 : String := "\n        1. You have been asked to review/process the record: **"

/-- Next-steps text following the `target` interpolation: fetch the
record with the query tools and process it. -/
def targetBlock2 : String :=
  "**.\n        2. Use your `get_single_record` or `query_records` tool to fetch the necessary data from ServiceNow.\n        3. Apply the instructions strictly to the data you retrieved and output the final result.\n        "

/-- Next-steps text when no target record was supplied: interview the
user, then use the create/update tools. -/
def interviewBlock : String :=
  "\n        1. The user wants to initiate this framework but did not provide a specific target record.\n        2. Interview the user to gather the required context or data points needed to fulfill the instructions.\n        3. If the instructions require creating or updating a record, use your `create_record` or `update_record` tools once you have gathered enough information.\n        "

/-- Embedding of the `read_framework_instructions` tool (`server.py`
lines 318-386).  Returns the response string together with the list of
paths on which any file-system access was performed: none when a name
fails the sanitizer; the framework path when its `open` is attempted
(found or not); and additionally the standards path, which is always
probed with `os.path.exists` once the framework document was read. -/
def read_framework_instructions (fs : DocStore) (domain framework target : String) :
    String × List String :=
  if safeNameMatch domain = false then
    ("Error: Invalid domain name '" ++ domain ++ "'.", [])
  else if safeNameMatch framework = false then
    ("Error: Invalid framework name '" ++ framework ++ "'.", [])
  else
    match fs.lookup (frameworkPath domain framework) with
    | none =>
        ("Error: No framework found at 'docs/" ++ domain ++ "/" ++ framework ++
           ".md'. Use `list_frameworks` to see options.",
         [frameworkPath domain framework])
    | some instructions =>
        let standards_text :=
          match fs.lookup (standardsPath domain) with
          | some content => stdLabel1 ++ strUpper domain ++ stdLabel2 ++ content ++ stdTail
          | none => ""
        let nextSteps :=
          if target = "" then interviewBlock
          else targetBlock1 ++ target ++ targetBlock2
        (promptIntro1 ++ framework ++ promptIntro2 ++ domain ++ promptIntro3 ++
           standards_text ++ taskHeader ++ instructions ++ nextStepsHeader ++ nextSteps,
         [frameworkPath domain framework, standardsPath domain])

/-- One entry of the `docs/` root directory as seen by `os.listdir`:
its name, whether it is a directory, and (for directories) the child
entries as `(name, os.path.isfile)` pairs. -/
structure FsEntry where
  name : String
  isDir : Bool
  children : List (String × Bool)
deriving Repr, DecidableEq

/-- The `docs/` root: whether `os.path.isdir(docs_dir)` holds, and its
entries. -/
structure DocsDir where
  present : Bool
  entries : List FsEntry
deriving Repr, DecidableEq

/-- Result of `list_frameworks`: either the error dictionary or the
domain → framework-names mapping (in insertion order). -/
inductive LFResult where
  | failure (error : String)
  | success (frameworks : List (String × List String))
deriving Repr, DecidableEq

/-- Framework names of one domain directory (`server.py` lines 306-309):
keep child files ending in `.md` other than `_standards.md`, strip the
extension, and sort. -/
def frameworksOf (children : List (String × Bool)) : List String :=
  ((children.filter fun c =>
      strEndsWith c.1 ".md" && c.1 != "_standards.md" && c.2).map
    fun c => c.1.dropRight 3).insertionSort fun a b => strLeB a b = true

/-- Embedding of the `list_frameworks` tool (`server.py` lines 285-313):
fail if the root is missing; otherwise walk the root entries in sorted
name order, skip non-directories, and record each domain whose framework
list is non-empty. -/
def list_frameworks (d : DocsDir) : LFResult :=
  if d.present = false then
    .failure "docs/ directory not found."
  else
    .success ((d.entries.insertionSort fun a b => strLeB a.name b.name = true).filterMap
      fun e =>
        if e.isDir = false then none
        else
          let fw := frameworksOf e.children
          if fw = [] then none else some (e.name, fw))

/-- `containsInOrder s parts` holds when the strings of `parts` occur in
`s` as disjoint substrings, in the given order. -/
def containsInOrder : String → List String → Prop
  | _, [] => True
  | s, p :: ps => ∃ pre post, s = pre ++ p ++ post ∧ containsInOrder post ps

/-! Concrete inputs used by the witness and counterexample theorems. -/

/-- Oracle for `json.loads` restricted to strings on which the decode
raises; the operations below consult it only at such strings (e.g.
`"not json"`), where it agrees with the real decoder. -/
def parseFail : String → Option Json := fun _ => none

/-- A healthy remote interaction: 200, JSON content-type, body decoding
to an empty object. -/
def evOk : HttpEvent := .response 200 "application/json" "\x7b\x7d" (some (.obj []))

/-- A successful query whose `result` field is the empty list (a
zero-match lookup). -/
def evEmptyList : HttpEvent :=
  .response 200 "application/json" "\x7b\"result\": []\x7d" (some (.obj [("result", .arr [])]))

/-- A successful query whose `result` field is a single object rather
than a list. -/
def evSingle : HttpEvent :=
  .response 200 "application/json" "\x7b\"result\": \x7b\"number\": \"INC1\"\x7d\x7d"
    (some (.obj [("result", .obj [("number", .str "INC1")])]))

/-- A 2xx JSON response whose body decodes to a top-level array. -/
def evArr : HttpEvent := .response 200 "application/json" "[]" (some (.arr []))

/-- A document store holding a framework document under a domain name
that ends in a newline character. -/
def fsLeak : DocStore := ⟨[("docs/change\n/x.md", "SECRET CONTENT")]⟩

/-- A document store with one framework document and its domain
standards document. -/
def fsDemo : DocStore :=
  ⟨[("docs/change/draft_normal_change.md", "Draft the change per SOP."),
    ("docs/change/_standards.md", "Always set risk.")]⟩

/-- A `docs/` root with two populated domains, one domain holding only
the reserved standards document, and one non-directory entry. -/
def d0 : DocsDir :=
  { present := true,
    entries :=
      [ { name := "incident", isDir := true,
          children := [("triage_incident.md", true), ("_standards.md", true)] },
        { name := "change", isDir := true,
          children := [("draft_normal_change.md", true), ("close_change.md", true)] },
        { name := "empty", isDir := true, children := [("_standards.md", true)] },
        { name := "readme.txt", isDir := false, children := [] } ] }

/-- The mapping `list_frameworks` produces on `d0`. -/
def m0 : List (String × List String) :=
  [("change", ["close_change", "draft_normal_change"]), ("incident", ["triage_incident"])]

/-! Helper lemmas about the normalizer, the table client and string
composition, shared by the claim theorems below. -/

/-- Every failure of the Outcome Normalizer carries an error message and
an `error_type` drawn from the seven-kind taxonomy. -/
lemma handle_failure_shape (ev : HttpEvent)
    (h : (handle_request_errors ev).success = false) :
    (handle_request_errors ev).error.isSome = true ∧
    ∃ t, (handle_request_errors ev).error_type = some t ∧ t ∈ errorTaxonomy := by
  cases ev with
  | timeoutExc msg => exact ⟨rfl, "timeout", rfl, by simp [errorTaxonomy]⟩
  | networkExc msg => exact ⟨rfl, "network_error", rfl, by simp [errorTaxonomy]⟩
  | otherExc msg => exact ⟨rfl, "unexpected_error", rfl, by simp [errorTaxonomy]⟩
  | response status ct body parsed =>
      simp only [handle_request_errors] at h ⊢
      by_cases h1 : 200 ≤ status ∧ status ≤ 299
      · rw [if_neg (not_not_intro h1)] at h ⊢
        by_cases h2 : isBlank body = true
        · rw [if_pos h2] at h ⊢
          exact ⟨rfl, "empty_response", rfl, by simp [errorTaxonomy]⟩
        · rw [if_neg h2] at h ⊢
          by_cases h3 : strContains ct "application/json" = false
          · rw [if_pos h3] at h ⊢
            exact ⟨rfl, "unexpected_content", rfl, by simp [errorTaxonomy]⟩
          · rw [if_neg h3] at h ⊢
            cases parsed with
            | none => exact ⟨rfl, "json_error", rfl, by simp [errorTaxonomy]⟩
            | some d =>
                cases d with
                | obj fields => simp at h
                | null => exact ⟨rfl, "unexpected_error", rfl, by simp [errorTaxonomy]⟩
                | bool b => exact ⟨rfl, "unexpected_error", rfl, by simp [errorTaxonomy]⟩
                | num n => exact ⟨rfl, "unexpected_error", rfl, by simp [errorTaxonomy]⟩
                | str s => exact ⟨rfl, "unexpected_error", rfl, by simp [errorTaxonomy]⟩
                | arr l => exact ⟨rfl, "unexpected_error", rfl, by simp [errorTaxonomy]⟩
      · rw [if_pos h1] at h ⊢
        exact ⟨rfl, "http_error", rfl, by simp [errorTaxonomy]⟩

/-- Every success of the Outcome Normalizer carries a `data` value. -/
lemma handle_success_data (ev : HttpEvent)
    (h : (handle_request_errors ev).success = true) :
    ∃ d, (handle_request_errors ev).data = some d := by
  cases ev with
  | timeoutExc msg => simp [handle_request_errors] at h
  | networkExc msg => simp [handle_request_errors] at h
  | otherExc msg => simp [handle_request_errors] at h
  | response status ct body parsed =>
      simp only [handle_request_errors] at h ⊢
      by_cases h1 : 200 ≤ status ∧ status ≤ 299
      · rw [if_neg (not_not_intro h1)] at h ⊢
        by_cases h2 : isBlank body = true
        · rw [if_pos h2] at h
          simp at h
        · rw [if_neg h2] at h ⊢
          by_cases h3 : strContains ct "application/json" = false
          · rw [if_pos h3] at h
            simp at h
          · rw [if_neg h3] at h ⊢
            cases parsed with
            | none => simp at h
            | some d =>
                cases d with
                | obj fields => exact ⟨_, rfl⟩
                | null => simp at h
                | bool b => simp at h
                | num n => simp at h
                | str s => simp at h
                | arr l => simp at h
      · rw [if_pos h1] at h
        simp at h

/-- `query_table` preserves the normalizer's success flag. -/
lemma query_table_success_eq (ev : HttpEvent) :
    (query_table ev).success = (handle_request_errors ev).success := by
  unfold query_table
  dsimp only
  split
  · split
    · rfl
    · rfl
  · rfl

/-- A failing `query_table` call returns the normalizer's outcome
unchanged. -/
lemma query_table_failure_eq (ev : HttpEvent)
    (h : (query_table ev).success = false) :
    query_table ev = handle_request_errors ev := by
  rw [query_table_success_eq] at h
  unfold query_table
  dsimp only
  simp [h]

/-- A failing `query_table` call produces a well-formed failure. -/
lemma query_table_failure_wf (ev : HttpEvent)
    (h : (query_table ev).success = false) :
    failureWellFormed (query_table ev) := by
  have heq := query_table_failure_eq ev h
  rw [heq] at h ⊢
  obtain ⟨h1, t, h2, h3⟩ := handle_failure_shape ev h
  refine ⟨h1, ?_⟩
  intro t' ht'
  rw [h2] at ht'
  injection ht' with h4
  exact h4 ▸ h3

/-- Introduction step for `containsInOrder`. -/
lemma cio_cons (s pre p post : String) (ps : List String)
    (heq : s = pre ++ p ++ post) (h : containsInOrder post ps) :
    containsInOrder s (p :: ps) :=
  ⟨pre, post, heq, h⟩

/-- The Boolean comparison `charListLe` is transitive. -/
lemma charListLe_trans : ∀ as bs cs : List Char,
    charListLe as bs = true → charListLe bs cs = true → charListLe as cs = true := by
  intro as
  induction as with
  | nil => intro bs cs h1 h2; rfl
  | cons a as ih =>
      intro bs cs h1 h2
      cases bs with
      | nil => exact Bool.noConfusion h1
      | cons b bs =>
          cases cs with
          | nil => exact Bool.noConfusion h2
          | cons c cs =>
              simp only [charListLe] at h1 h2 ⊢
              by_cases hab : a < b
              · rw [if_pos hab] at h1
                by_cases hbc : b < c
                · rw [if_pos (lt_trans hab hbc)]
                · rw [if_neg hbc] at h2
                  by_cases hcb : c < b
                  · rw [if_pos hcb] at h2
                    exact Bool.noConfusion h2
                  · have hbce : b = c := le_antisymm (not_lt.mp hcb) (not_lt.mp hbc)
                    subst hbce
                    rw [if_pos hab]
              · rw [if_neg hab] at h1
                by_cases hba : b < a
                · rw [if_pos hba] at h1
                  exact Bool.noConfusion h1
                · rw [if_neg hba] at h1
                  have habe : a = b := le_antisymm (not_lt.mp hba) (not_lt.mp hab)
                  subst habe
                  by_cases hac : a < c
                  · rw [if_pos hac]
                  · rw [if_neg hac] at h2 ⊢
                    by_cases hca : c < a
                    · rw [if_pos hca] at h2
                      exact Bool.noConfusion h2
                    · rw [if_neg hca] at h2 ⊢
                      exact ih bs cs h1 h2

/-- The Boolean comparison `charListLe` is total. -/
lemma charListLe_total : ∀ as bs : List Char,
    (charListLe as bs || charListLe bs as) = true := by
  intro as
  induction as with
  | nil => intro bs; rfl
  | cons a as ih =>
      intro bs
      cases bs with
      | nil => rfl
      | cons b bs =>
          simp only [charListLe]
          by_cases hab : a < b
          · rw [if_pos hab]
            rfl
          · rw [if_neg hab]
            by_cases hba : b < a
            · rw [if_pos hba, if_pos hba]
              rfl
            · rw [if_neg hba, if_neg hba, if_neg hab]
              exact ih bs

/-- `charListLe as bs = true` forbids `bs` being lexicographically
smaller than `as`. -/
lemma charListLe_not_lex : ∀ as bs : List Char,
    charListLe as bs = true → ¬ List.Lex (· < ·) bs as := by
  intro as
  induction as with
  | nil =>
      intro bs h hlex
      cases hlex
  | cons a as ih =>
      intro bs h hlex
      cases bs with
      | nil => exact Bool.noConfusion h
      | cons b bs =>
          simp only [charListLe] at h
          cases hlex with
          | cons hlex2 =>
              rw [if_neg (lt_irrefl a), if_neg (lt_irrefl a)] at h
              exact ih bs h hlex2
          | rel hba =>
              rw [if_neg (lt_asymm hba), if_pos hba] at h
              exact Bool.noConfusion h

/-- The embedded Python string order implies Lean's string order. -/
lemma strLeB_le (a b : String) (h : strLeB a b = true) : a ≤ b := by
  rw [String.le_iff_toList_le, ← not_lt]
  exact fun hlt => charListLe_not_lex a.toList b.toList h hlt

/-- `strLeB` is transitive. -/
lemma strLeB_trans (a b c : String)
    (h1 : strLeB a b = true) (h2 : strLeB b c = true) : strLeB a c = true :=
  charListLe_trans _ _ _ h1 h2

/-- `strLeB` is total. -/
lemma strLeB_total (a b : String) : (strLeB a b || strLeB b a) = true :=
  charListLe_total _ _

/-- The Boolean string order, as a relation, is total. -/
lemma strLeB_rel_total : IsTotal String (fun a b => strLeB a b = true) :=
  ⟨fun a b => by
    have h := strLeB_total a b
    cases hab : strLeB a b with
    | true => exact Or.inl rfl
    | false =>
        rw [hab] at h
        exact Or.inr (by simpa using h)⟩

/-- The Boolean string order, as a relation, is transitive. -/
lemma strLeB_rel_trans : IsTrans String (fun a b => strLeB a b = true) :=
  ⟨fun a b c => strLeB_trans a b c⟩

/-- A domain's framework-name list is sorted. -/
lemma frameworksOf_sorted (children : List (String × Bool)) :
    (frameworksOf children).Sorted (· ≤ ·) := by
  unfold frameworksOf
  exact List.Pairwise.imp (fun h => strLeB_le _ _ h)
    (@List.sorted_insertionSort String (fun a b => strLeB a b = true) _
      strLeB_rel_total strLeB_rel_trans _)

/-! Claim theorems. -/

/-- C6: for every integer `limit` passed to `query_records`, the
`sysparm_limit` sent downstream is `min limit 100`; in particular it is
exactly `100` whenever `limit ≥ 100`; and the clamp is silent: the
operation's outcome is whatever `query_table` returns, with no local
error path. -/
theorem query_records_clamps_limit (q : String) (lim : Int) (flds : String)
    (ev : HttpEvent) :
    (query_records q lim flds ev).1.sysparm_limit = min lim 100 ∧
    (100 ≤ lim → (query_records q lim flds ev).1.sysparm_limit = 100) ∧
    (query_records q lim flds ev).2 = query_table ev := by
  refine ⟨rfl, ?_, rfl⟩
  intro h
  show min lim 100 = 100
  exact min_eq_right h

/-- Witness for C6 at `limit = 250`. -/
theorem query_records_clamps_limit_witness :
    (100 : Int) ≤ 250 ∧ (query_records "" 250 "" evOk).1.sysparm_limit = 100 :=
  ⟨by norm_num, (query_records_clamps_limit "" 250 "" evOk).2.1 (by norm_num)⟩

/-- C7: whenever the underlying `query_table` call succeeds with zero
records, `get_single_record` returns a failure ("not found") rather than
a success with an empty sequence. -/
theorem get_single_record_not_found (tbl rec qf flds : String) (ev : HttpEvent)
    (hs : (query_table ev).success = true)
    (hc : (query_table ev).count.getD 0 = 0) :
    (get_single_record tbl rec qf flds ev).2.success = false ∧
    (get_single_record tbl rec qf flds ev).2.error =
      some ("Record " ++ rec ++ " not found in " ++ tbl) := by
  unfold get_single_record
  simp [hs, hc]

/-- Witness for C7 on a zero-match response. -/
theorem get_single_record_not_found_witness :
    (query_table evEmptyList).success = true ∧
    (query_table evEmptyList).count.getD 0 = 0 ∧
    (get_single_record "incident" "INC0010001" "number" "" evEmptyList).2.success = false :=
  ⟨by rfl, by rfl,
    (get_single_record_not_found "incident" "INC0010001" "number" "" evEmptyList
      (by rfl) (by rfl)).1⟩

/-- C8: every successful `query_table` call returns `data` as a list
whose length is `count`; a non-list normalizer payload is wrapped into a
one-element list. -/
theorem query_table_wraps_and_counts (ev : HttpEvent)
    (hs : (query_table ev).success = true) :
    ∃ l, (query_table ev).data = some (Json.arr l) ∧
      (query_table ev).count = some l.length ∧
      ∀ d, (handle_request_errors ev).data = some d → d.isArr = false → l = [d] := by
  have hh : (handle_request_errors ev).success = true := by
    rw [← query_table_success_eq]
    exact hs
  obtain ⟨d, hd⟩ := handle_success_data ev hh
  refine ⟨d.toListWrap, ?_, ?_, ?_⟩
  · simp [query_table, hh, hd]
  · simp [query_table, hh, hd]
  · intro d' hd' hna
    rw [hd] at hd'
    injection hd' with h4
    subst h4
    cases d with
    | arr l => simp [Json.isArr] at hna
    | null => rfl
    | bool b => rfl
    | num n => rfl
    | str s => rfl
    | obj fields => rfl

/-- Witness for C8 on a single-object payload: the data becomes a
one-element list and `count = 1`. -/
theorem query_table_wraps_and_counts_witness :
    (query_table evSingle).success = true ∧
    (query_table evSingle).count = some 1 ∧
    ∃ l, (query_table evSingle).data = some (Json.arr l) ∧
      (query_table evSingle).count = some l.length ∧
      ∀ d, (handle_request_errors evSingle).data = some d → d.isArr = false → l = [d] :=
  ⟨by rfl, by rfl, query_table_wraps_and_counts evSingle (by rfl)⟩

/-- C3 (amended): on a 2xx, JSON-content-type, non-empty-body response
whose body decodes to a top-level object, the normalizer succeeds and
`data` is the `result` field when present, else the whole object; but on
a decoded value of any other top-level shape, the `.get` attribute error
makes the normalizer fail with `unexpected_error`. -/
theorem handle_success_unwraps_result (status : Nat) (ct body : String) (v : Json)
    (h2xx : 200 ≤ status ∧ status ≤ 299) (hbody : isBlank body = false)
    (hct : strContains ct "application/json" = true) :
    (∀ fields, v = Json.obj fields →
      handle_request_errors (.response status ct body (some v)) =
        { success := true, data := some ((fields.lookup "result").getD v) }) ∧
    (v.isObj = false →
      (handle_request_errors (.response status ct body (some v))).success = false ∧
      (handle_request_errors (.response status ct body (some v))).error_type =
        some "unexpected_error") := by
  constructor
  · rintro fields rfl
    simp only [handle_request_errors]
    rw [if_neg (not_not_intro h2xx), if_neg (by simp [hbody]), if_neg (by simp [hct])]
  · intro hobj
    simp only [handle_request_errors]
    rw [if_neg (not_not_intro h2xx), if_neg (by simp [hbody]), if_neg (by simp [hct])]
    cases v with
    | obj fields => simp [Json.isObj] at hobj
    | null => exact ⟨rfl, rfl⟩
    | bool b => exact ⟨rfl, rfl⟩
    | num n => exact ⟨rfl, rfl⟩
    | str s => exact ⟨rfl, rfl⟩
    | arr l => exact ⟨rfl, rfl⟩

/-- Witness for C3 (amended) on an object body carrying a `result`
field. -/
theorem handle_success_unwraps_result_witness :
    (200 ≤ 200 ∧ 200 ≤ 299) ∧ isBlank "x" = false ∧
    strContains "application/json" "application/json" = true ∧
    handle_request_errors
        (.response 200 "application/json" "x" (some (Json.obj [("result", Json.str "r")]))) =
      { success := true, data := some (Json.str "r") } :=
  ⟨by norm_num, by decide, by decide,
    (handle_success_unwraps_result 200 "application/json" "x"
        (Json.obj [("result", Json.str "r")]) (by norm_num) (by decide) (by decide)).1
      [("result", Json.str "r")] rfl⟩

/-- C3 counterexample: a 2xx response with JSON content-type whose
non-empty body parses to a top-level JSON array is **not** returned as a
success with the whole parsed value as `data`; the normalizer fails with
`unexpected_error`. -/
theorem handle_nonobject_body_counterexample :
    (handle_request_errors evArr).success = false ∧
    (handle_request_errors evArr).error_type = some "unexpected_error" ∧
    (handle_request_errors evArr).data = none :=
  ⟨rfl, rfl, rfl⟩

/-- C4 (amended): a payload string that `json.loads` cannot decode makes
both `create_record` and `update_record` (the latter with a well-formed
sys_id) return the local failure dictionary — `success:false` with the
fixed error message and **no** `error_type` key — and the network flag
stays `false`. -/
theorem create_update_reject_bad_payload (parseJson : String → Option Json)
    (sid pj : String) (ev : HttpEvent)
    (hpj : parseJson pj = none) (hsid : isValidSysId sid = true) :
    create_record parseJson pj ev =
      ({ success := false, error := some "Invalid JSON string provided for payload." },
       false) ∧
    update_record parseJson sid pj ev =
      ({ success := false, error := some "Invalid JSON string provided for payload." },
       false) := by
  constructor
  · simp [create_record, hpj]
  · simp [update_record, hsid, hpj]

/-- Witness for C4 (amended) at an undecodable payload and a well-formed
sys_id. -/
theorem create_update_reject_bad_payload_witness :
    parseFail "not json" = none ∧
    isValidSysId "0123456789abcdef0123456789abcdef" = true ∧
    (create_record parseFail "not json" evOk =
      ({ success := false, error := some "Invalid JSON string provided for payload." },
       false) ∧
    update_record parseFail "0123456789abcdef0123456789abcdef" "not json" evOk =
      ({ success := false, error := some "Invalid JSON string provided for payload." },
       false)) :=
  ⟨rfl, by rfl,
    create_update_reject_bad_payload parseFail "0123456789abcdef0123456789abcdef"
      "not json" evOk rfl (by rfl)⟩

/-- C4 counterexample: on an undecodable payload, `create_record`'s
failure carries **no** `error_type` field at all, so in particular it is
not `invalid_payload_json` as the claim states (the no-network part
holds: the flag is `false`). -/
theorem create_record_missing_error_type_counterexample :
    (create_record parseFail "not a json payload" evOk).1.success = false ∧
    (create_record parseFail "not a json payload" evOk).1.error_type = none ∧
    (create_record parseFail "not a json payload" evOk).2 = false :=
  ⟨rfl, rfl, rfl⟩

/-- C5 (amended): every sys_id failing the 32-lowercase-hex check makes
`update_record` return the local failure dictionary — `success:false`
with the format error message and **no** `error_type` key — without any
network call. -/
theorem update_record_rejects_bad_sysid (parseJson : String → Option Json)
    (sid pj : String) (ev : HttpEvent) (h : isValidSysId sid = false) :
    update_record parseJson sid pj ev =
      ({ success := false,
         error := some ("Invalid sys_id format: '" ++ sid ++
           "'. Must be a 32-character hex string.") },
       false) := by
  simp [update_record, h]

/-- Witness for C5 (amended) at a malformed identifier. -/
theorem update_record_rejects_bad_sysid_witness :
    isValidSysId "CHG0030001" = false ∧
    update_record parseFail "CHG0030001" "x" evOk =
      ({ success := false,
         error := some ("Invalid sys_id format: '" ++ "CHG0030001" ++
           "'. Must be a 32-character hex string.") },
       false) :=
  ⟨by rfl, update_record_rejects_bad_sysid parseFail "CHG0030001" "x" evOk (by rfl)⟩

/-- C5 counterexample: on a malformed sys_id the failure carries **no**
`error_type` field, so in particular it is not `invalid_sys_id_format`
as the claim states (the before-network part holds: the flag is
`false`). -/
theorem update_record_missing_error_type_counterexample :
    (update_record parseFail "not-a-sys-id" "x" evOk).1.success = false ∧
    (update_record parseFail "not-a-sys-id" "x" evOk).1.error_type = none ∧
    (update_record parseFail "not-a-sys-id" "x" evOk).2 = false :=
  ⟨by rfl, by rfl, by rfl⟩

/-- C1 (amended): every failure result of the four tool operations
carries `success:false` and a human-readable `error`, and whenever it
carries an `error_type` that value is drawn from the seven-kind
normalizer taxonomy; the local-validation failures (malformed payload,
malformed sys_id, zero-match lookup) carry no `error_type` field. -/
theorem tool_failures_well_formed (parseJson : String → Option Json)
    (q : String) (lim : Int) (flds tbl rec qf sid pj : String) (ev : HttpEvent) :
    ((query_records q lim flds ev).2.success = false →
      failureWellFormed (query_records q lim flds ev).2) ∧
    ((get_single_record tbl rec qf flds ev).2.success = false →
      failureWellFormed (get_single_record tbl rec qf flds ev).2) ∧
    ((create_record parseJson pj ev).1.success = false →
      failureWellFormed (create_record parseJson pj ev).1) ∧
    ((update_record parseJson sid pj ev).1.success = false →
      failureWellFormed (update_record parseJson sid pj ev).1) := by
  refine ⟨?_, ?_, ?_, ?_⟩
  · intro h
    exact query_table_failure_wf ev h
  · intro h
    unfold get_single_record at h ⊢
    dsimp only at h ⊢
    by_cases hb : (query_table ev).success && ((query_table ev).count.getD 0 == 0)
    · rw [if_pos hb] at h ⊢
      exact ⟨rfl, by intro t ht; cases ht⟩
    · rw [if_neg hb] at h ⊢
      exact query_table_failure_wf ev h
  · cases hp : parseJson pj with
    | none =>
        intro h
        simp only [create_record, hp]
        exact ⟨rfl, by intro t ht; cases ht⟩
    | some v =>
        intro h
        simp only [create_record, insert_record, hp] at h ⊢
        obtain ⟨h1, t, h2, h3⟩ := handle_failure_shape ev h
        refine ⟨h1, ?_⟩
        intro t' ht'
        rw [h2] at ht'
        injection ht' with h4
        exact h4 ▸ h3
  · by_cases hv : isValidSysId sid = false
    · intro h
      simp only [update_record, hv, if_pos]
      exact ⟨rfl, by intro t ht; cases ht⟩
    · intro h
      unfold update_record at h ⊢
      rw [if_neg hv] at h ⊢
      cases hp : parseJson pj with
      | none =>
          simp only [hp]
          exact ⟨rfl, by intro t ht; cases ht⟩
      | some v =>
          simp only [hp, modify_record] at h ⊢
          obtain ⟨h1, t, h2, h3⟩ := handle_failure_shape ev h
          refine ⟨h1, ?_⟩
          intro t' ht'
          rw [h2] at ht'
          injection ht' with h4
          exact h4 ▸ h3

/-- Witness for C1 (amended): a remote 500 makes `query_records` fail
with a well-formed failure. -/
theorem tool_failures_well_formed_witness :
    (query_records "active=true" 10 "" (.response 500 "application/json" "boom" none)).2.success
        = false ∧
    failureWellFormed
      (query_records "active=true" 10 "" (.response 500 "application/json" "boom" none)).2 :=
  ⟨by rfl,
    (tool_failures_well_formed parseFail "active=true" 10 "" "" "" "" "" ""
        (.response 500 "application/json" "boom" none)).1 (by rfl)⟩

/-- C1 counterexample: the zero-match `get_single_record` failure is
serialized with `success:false` and an `error`, but with **no**
`error_type` field — contradicting the claim that every tool-surface
failure carries a machine-readable `error_type`. -/
theorem get_single_record_missing_error_type_counterexample :
    (get_single_record "incident" "INC404" "number" "" evEmptyList).2.success = false ∧
    (get_single_record "incident" "INC404" "number" "" evEmptyList).2.error.isSome = true ∧
    (get_single_record "incident" "INC404" "number" "" evEmptyList).2.error_type = none :=
  ⟨by rfl, by rfl, by rfl⟩

/-- C2 (code defect): the sanitizer is `re.match` with a `$` anchor, and
in Python `$` also matches just before a trailing newline, so the domain
string `"change\n"` — which contains the character `'\n'`, outside the
class `[a-zA-Z0-9_-]` — passes validation; the router then performs
file-system accesses and even returns the document stored under the
newline-bearing path, instead of failing with a local validation error
and touching no file. -/
theorem sanitizer_trailing_newline_bypass :
    safeNameMatch "change\n" = true ∧
    ("change\n").toList.all isSafeChar = false ∧
    (read_framework_instructions fsLeak "change\n" "x" "").2 =
      [frameworkPath "change\n" "x", standardsPath "change\n"] ∧
    strContains (read_framework_instructions fsLeak "change\n" "x" "").1 "SECRET CONTENT"
      = true :=
  ⟨by rfl, by rfl, by rfl, by rfl⟩

/-- C9: for every valid domain/framework pair whose framework document
exists, the composed directive contains, in order: when the standards
document is present, the standards label bearing the upper-cased domain
name followed by the standards content; then the framework instructions;
then the next-steps header; and then — when a non-empty target was
supplied — the target and the fetch-and-process block, or — when the
target is empty — the interactive information-gathering block.  When the
standards document is absent the first two items are simply dropped and
the rest of the order still holds. -/
theorem read_framework_instructions_order (fs : DocStore)
    (domain framework target instr : String)
    (hd : safeNameMatch domain = true) (hf : safeNameMatch framework = true)
    (hi : fs.lookup (frameworkPath domain framework) = some instr) :
    containsInOrder (read_framework_instructions fs domain framework target).1
      ((match fs.lookup (standardsPath domain) with
        | some std => [stdLabel1 ++ strUpper domain ++ stdLabel2, std]
        | none => []) ++ [instr, nextStepsHeader] ++
        (if target = "" then [interviewBlock] else [target, targetBlock2])) := by
  cases hstd : fs.lookup (standardsPath domain) with
  | some std =>
      have hres : (read_framework_instructions fs domain framework target).1 =
          promptIntro1 ++ framework ++ promptIntro2 ++ domain ++ promptIntro3 ++
            (stdLabel1 ++ strUpper domain ++ stdLabel2 ++ std ++ stdTail) ++ taskHeader ++
            instr ++ nextStepsHeader ++
            (if target = "" then interviewBlock
             else targetBlock1 ++ target ++ targetBlock2) := by
        simp [read_framework_instructions, hd, hf, hi, hstd]
      rw [hres]
      rcases eq_or_ne target "" with ht | ht
      · subst ht
        rw [if_pos rfl, if_pos rfl]
        simp only [List.cons_append, List.nil_append]
        refine cio_cons _
          (promptIntro1 ++ framework ++ promptIntro2 ++ domain ++ promptIntro3)
          (stdLabel1 ++ strUpper domain ++ stdLabel2)
          (std ++ stdTail ++ taskHeader ++ instr ++ nextStepsHeader ++ interviewBlock) _
          (by simp only [String.append_assoc]) ?_
        refine cio_cons _ "" std
          (stdTail ++ taskHeader ++ instr ++ nextStepsHeader ++ interviewBlock) _
          (by simp only [String.append_assoc, String.empty_append]) ?_
        refine cio_cons _ (stdTail ++ taskHeader) instr (nextStepsHeader ++ interviewBlock) _
          (by simp only [String.append_assoc]) ?_
        refine cio_cons _ "" nextStepsHeader interviewBlock _
          (by simp only [String.append_assoc, String.empty_append]) ?_
        refine cio_cons _ "" interviewBlock "" _
          (by simp only [String.empty_append, String.append_empty]) trivial
      · rw [if_neg ht, if_neg ht]
        simp only [List.cons_append, List.nil_append]
        refine cio_cons _
          (promptIntro1 ++ framework ++ promptIntro2 ++ domain ++ promptIntro3)
          (stdLabel1 ++ strUpper domain ++ stdLabel2)
          (std ++ stdTail ++ taskHeader ++ instr ++ nextStepsHeader ++ targetBlock1 ++
            target ++ targetBlock2) _
          (by simp only [String.append_assoc]) ?_
        refine cio_cons _ "" std
          (stdTail ++ taskHeader ++ instr ++ nextStepsHeader ++ targetBlock1 ++ target ++
            targetBlock2) _
          (by simp only [String.append_assoc, String.empty_append]) ?_
        refine cio_cons _ (stdTail ++ taskHeader) instr
          (nextStepsHeader ++ targetBlock1 ++ target ++ targetBlock2) _
          (by simp only [String.append_assoc]) ?_
        refine cio_cons _ "" nextStepsHeader (targetBlock1 ++ target ++ targetBlock2) _
          (by simp only [String.append_assoc, String.empty_append]) ?_
        refine cio_cons _ targetBlock1 target targetBlock2 _
          (by simp only [String.append_assoc]) ?_
        refine cio_cons _ "" targetBlock2 "" _
          (by simp only [String.empty_append, String.append_empty]) trivial
  | none =>
      have hres : (read_framework_instructions fs domain framework target).1 =
          promptIntro1 ++ framework ++ promptIntro2 ++ domain ++ promptIntro3 ++
            taskHeader ++ instr ++ nextStepsHeader ++
            (if target = "" then interviewBlock
             else targetBlock1 ++ target ++ targetBlock2) := by
        simp [read_framework_instructions, hd, hf, hi, hstd]
      rw [hres]
      rcases eq_or_ne target "" with ht | ht
      · subst ht
        rw [if_pos rfl, if_pos rfl]
        simp only [List.cons_append, List.nil_append]
        refine cio_cons _
          (promptIntro1 ++ framework ++ promptIntro2 ++ domain ++ promptIntro3 ++ taskHeader)
          instr (nextStepsHeader ++ interviewBlock) _
          (by simp only [String.append_assoc]) ?_
        refine cio_cons _ "" nextStepsHeader interviewBlock _
          (by simp only [String.append_assoc, String.empty_append]) ?_
        refine cio_cons _ "" interviewBlock "" _
          (by simp only [String.empty_append, String.append_empty]) trivial
      · rw [if_neg ht, if_neg ht]
        simp only [List.cons_append, List.nil_append]
        refine cio_cons _
          (promptIntro1 ++ framework ++ promptIntro2 ++ domain ++ promptIntro3 ++ taskHeader)
          instr (nextStepsHeader ++ targetBlock1 ++ target ++ targetBlock2) _
          (by simp only [String.append_assoc]) ?_
        refine cio_cons _ "" nextStepsHeader (targetBlock1 ++ target ++ targetBlock2) _
          (by simp only [String.append_assoc, String.empty_append]) ?_
        refine cio_cons _ targetBlock1 target targetBlock2 _
          (by simp only [String.append_assoc]) ?_
        refine cio_cons _ "" targetBlock2 "" _
          (by simp only [String.empty_append, String.append_empty]) trivial

/-- Witness for C9 on a concrete store with both documents present and
no target. -/
theorem read_framework_instructions_order_witness :
    safeNameMatch "change" = true ∧
    safeNameMatch "draft_normal_change" = true ∧
    fsDemo.lookup (frameworkPath "change" "draft_normal_change") =
      some "Draft the change per SOP." ∧
    containsInOrder (read_framework_instructions fsDemo "change" "draft_normal_change" "").1
      ((match fsDemo.lookup (standardsPath "change") with
        | some std => [stdLabel1 ++ strUpper "change" ++ stdLabel2, std]
        | none => []) ++ ["Draft the change per SOP.", nextStepsHeader] ++
        (if ("" : String) = "" then [interviewBlock] else ["", targetBlock2])) :=
  ⟨by rfl, by rfl, by rfl,
    read_framework_instructions_order fsDemo "change" "draft_normal_change" ""
      "Draft the change per SOP." (by rfl) (by rfl) (by rfl)⟩

/-- C10: on a successful `list_frameworks` run over a root with
pairwise-distinct entry names, every listed domain maps to a non-empty
sorted framework list computed from a directory entry of that name, and
any root entry that is not a directory or whose framework list is empty
does not appear among the listed domains. -/
theorem list_frameworks_shape (d : DocsDir) (m : List (String × List String))
    (hm : list_frameworks d = .success m)
    (hnodup : (d.entries.map FsEntry.name).Nodup) :
    (∀ p ∈ m, p.2 ≠ [] ∧ p.2.Sorted (· ≤ ·) ∧
      ∃ e ∈ d.entries, e.isDir = true ∧ e.name = p.1 ∧ frameworksOf e.children = p.2) ∧
    (∀ e ∈ d.entries, (e.isDir = false ∨ frameworksOf e.children = []) →
      e.name ∉ m.map Prod.fst) := by
  have hm2 : m = (d.entries.insertionSort fun a b => strLeB a.name b.name = true).filterMap
      (fun e =>
        if e.isDir = false then none
        else
          let fw := frameworksOf e.children
          if fw = [] then none else some (e.name, fw)) := by
    unfold list_frameworks at hm
    by_cases hp : d.present = false
    · rw [if_pos hp] at hm
      cases hm
    · rw [if_neg hp] at hm
      injection hm with h
      exact h.symm
  constructor
  · intro p hp
    rw [hm2, List.mem_filterMap] at hp
    obtain ⟨e, he, hfe⟩ := hp
    rw [List.mem_insertionSort] at he
    by_cases hdir : e.isDir = false
    · rw [if_pos hdir] at hfe
      cases hfe
    · rw [if_neg hdir] at hfe
      dsimp only at hfe
      by_cases hfw : frameworksOf e.children = []
      · rw [if_pos hfw] at hfe
        cases hfe
      · rw [if_neg hfw] at hfe
        injection hfe with h
        subst h
        exact ⟨hfw, frameworksOf_sorted e.children, e, he, by simpa using hdir, rfl, rfl⟩
  · intro e he hbad hmem
    rw [hm2, List.mem_map] at hmem
    obtain ⟨p, hpmem, hpname⟩ := hmem
    rw [List.mem_filterMap] at hpmem
    obtain ⟨e2, he2, hfe2⟩ := hpmem
    rw [List.mem_insertionSort] at he2
    by_cases hdir : e2.isDir = false
    · rw [if_pos hdir] at hfe2
      cases hfe2
    · rw [if_neg hdir] at hfe2
      dsimp only at hfe2
      by_cases hfw : frameworksOf e2.children = []
      · rw [if_pos hfw] at hfe2
        cases hfe2
      · rw [if_neg hfw] at hfe2
        injection hfe2 with h
        have hname : e2.name = e.name := by
          rw [← h] at hpname
          exact hpname
        have heq : e2 = e := List.inj_on_of_nodup_map hnodup he2 he hname
        subst heq
        cases hbad with
        | inl hb => exact hdir hb
        | inr hb => exact hfw hb

/-- Witness for C10 on the concrete root `d0`: the `empty` domain (only
`_standards.md`) and the file `readme.txt` are omitted, the two
populated domains appear with non-empty sorted lists. -/
theorem list_frameworks_shape_witness :
    list_frameworks d0 = .success m0 ∧
    (d0.entries.map FsEntry.name).Nodup ∧
    ((∀ p ∈ m0, p.2 ≠ [] ∧ p.2.Sorted (· ≤ ·) ∧
      ∃ e ∈ d0.entries, e.isDir = true ∧ e.name = p.1 ∧ frameworksOf e.children = p.2) ∧
    (∀ e ∈ d0.entries, (e.isDir = false ∨ frameworksOf e.children = []) →
      e.name ∉ m0.map Prod.fst)) :=
  ⟨by rfl, by decide, list_frameworks_shape d0 m0 (by rfl) (by decide)⟩

end SNServer
